import Mathlib

/-!
Verification of the mtspin-mcu-firmware motion controller against its
specification.

The development shallowly embeds the two source files:
  * src/src/stepper_driver.cpp  (namespace mt, class StepperDriver)
  * src/src/momentary_button.cpp (namespace mtspin, class MomentaryButton)

Conventions of the embedding:
  * C++ doubles/floats become exact rationals (ℚ); the claims settled here
    concern branch structure and integer bookkeeping, not float rounding.
  * Machine integers become Nat/Int; monotonic clock subtraction is modelled
    with the explicit modular arithmetic of the C integer widths involved
    (see elapsed32 and elapsed64 below).
  * The function-local `static` variables of the source (one instance per
    class in this single-instance firmware) become fields of an explicit
    state record; each poll of a member function is a state transition
    taking the clock reading(s) of that poll as input.  The several
    millis()/micros() reads within one poll are modelled as one poll time.
  * digitalWrite on a pin becomes a pin-level field of the state;
    delayMicroseconds is a busy wait with no modelled effect.
  * `pul_count` is a ghost instrumentation field counting emitted microstep
    pulses (each LOW/HIGH cycle driven on the pulse pin).
-/

/-- Modular value of 2^32, the wrap modulus of the Arduino millis()/micros()
counters (the spec declares both monotonic clocks as uint32). -/
def UINT32_LIMIT : Nat := 4294967296

/-- Modular value of 2^64, the modulus of uint64_t arithmetic. -/
def UINT64_LIMIT : Nat := 18446744073709551616

/-- Unsigned 32-bit subtraction now - ref, the arithmetic performed by
`millis() - reference` when both operands are uint32. -/
def elapsed32 (now ref : Nat) : Nat :=
  (now + (UINT32_LIMIT - ref % UINT32_LIMIT)) % UINT32_LIMIT

/-- Unsigned 64-bit subtraction now - ref, the arithmetic performed by
`micros() - reference_microstep_time_us` in the source, where the reference
is declared uint64_t: the uint32 micros() reading is promoted to uint64 and
the subtraction wraps at 2^64, not at the counter's own 2^32. -/
def elapsed64 (now ref : Nat) : Nat :=
  (now + (UINT64_LIMIT - ref % UINT64_LIMIT)) % UINT64_LIMIT

/-- C library round(): round half away from zero (the source rounds the
target angle in microsteps with round()). -/
def cround (q : ℚ) : Int :=
  if q < 0 then -(Int.floor (-q + 1/2)) else Int.floor (q + 1/2)

/-- C truncation toward zero, the conversion applied when a double is
assigned to an integer variable. -/
def ctrunc (q : ℚ) : Int :=
  if q < 0 then Int.ceil q else Int.floor q

/-- Modelled from the spec: the constant kPi used by the unit conversions is
declared in the missing header stepper_driver.h; it is the double
approximation of pi.  Only its positivity matters below. -/
def kPi : ℚ := 3.14159265358979323846

namespace mt

namespace StepperDriver

/-- Digital pin levels (Arduino LOW/HIGH). -/
inductive PinLevel
  | low
  | high
deriving DecidableEq

/-- Enumerators of StepperDriver::MotionType used by the source. -/
inductive MotionType
  | kAbsolute
  | kRelative
  | kPause
  | kResume
  | kStopAndReset
deriving DecidableEq

/-- Enumerators of StepperDriver::MotionStatus used by the source. -/
inductive MotionStatus
  | kIdle
  | kPaused
  | kAccelerate
  | kConstantSpeed
  | kDecelerate
deriving DecidableEq

/-- Enumerators of StepperDriver::MotionDirection used by the source. -/
inductive MotionDirection
  | kNegative
  | kNeutral
  | kPositive
deriving DecidableEq

/-- Enumerators of StepperDriver::PowerState (kDisabled appears in the
source; the enabled enumerator is its complement from the header). -/
inductive PowerState
  | kEnabled
  | kDisabled
deriving DecidableEq

/-- Enumerators of StepperDriver::AngleUnits used by the source. -/
inductive AngleUnits
  | kMicrosteps
  | kDegrees
  | kRadians
  | kRevolutions
deriving DecidableEq

/-- Enumerators of StepperDriver::CalculationOption (kSetupMotion appears in
the source; the calculate-only enumerator is its complement from the
header). -/
inductive CalculationOption
  | kCalculateOnly
  | kSetupMotion
deriving DecidableEq

/-- The mutable state of one StepperDriver instance: its member variables
together with the function-local statics of MoveByAngle, MoveByJogging and
MoveByMicrostepAtMicrostepPeriod, the two commanded pins, and the ghost
pulse counter. -/
structure State where
  /-- Member microstep_angle_degrees_ = full_step_angle / (gear_ratio * step_mode). -/
  microstep_angle_degrees : ℚ
  /-- Member microstep_period_us_ (0 encodes zero speed). -/
  microstep_period_us : ℚ
  /-- Member speed_period_us_ (0 encodes no ramp configured). -/
  speed_period_us : ℚ
  /-- Member power_state_. -/
  power_state : PowerState
  /-- Member angular_position_microsteps_. -/
  angular_position_microsteps : Int
  /-- Member angular_position_updater_microsteps_ (+1 or -1, latched by move setup). -/
  angular_position_updater_microsteps : Int
  /-- Member relative_microsteps_to_move_ (uint64_t in the source; Int here,
  with nonnegativity proved as an invariant rather than imposed by the type). -/
  relative_microsteps_to_move : Int
  /-- Static microsteps_after_acceleration of MoveByAngle. -/
  microsteps_after_acceleration : Int
  /-- Static microsteps_after_constant_speed of MoveByAngle. -/
  microsteps_after_constant_speed : Int
  /-- Static motion_status of MoveByAngle. -/
  motion_status : MotionStatus
  /-- Level last written to the direction pin. -/
  dir_pin : PinLevel
  /-- Level last written to the pulse pin. -/
  pul_pin : PinLevel
  /-- Static reference_microstep_time_us of MoveByMicrostepAtMicrostepPeriod
  (uint64_t in the source, assigned from the uint32 micros()). -/
  reference_microstep_time_us : Nat
  /-- Static set_direction of MoveByJogging. -/
  set_direction : MotionDirection
  /-- Ghost counter of emitted microstep pulses. -/
  pul_count : Nat
deriving DecidableEq

/-- The angle-units switch of CalculateRelativeMicrostepsToMoveByAngle:
converts the requested angle into (fractional) microsteps. -/
def angleMicrosteps (s : State) (angle : ℚ) (u : AngleUnits) : ℚ :=
  match u with
  | AngleUnits.kMicrosteps => angle
  | AngleUnits.kDegrees => angle / s.microstep_angle_degrees
  | AngleUnits.kRadians => (180 * angle) / (kPi * s.microstep_angle_degrees)
  | AngleUnits.kRevolutions => (360 * angle) / s.microstep_angle_degrees

/-- The motion-type switch of CalculateRelativeMicrostepsToMoveByAngle:
signed microsteps to move.  Absolute: round(target) - current position;
Relative: the (truncated) requested amount; zero for the other motion
types, as the source comments. -/
def relativeAngleMicrosteps (s : State) (am : ℚ) (mt : MotionType) : Int :=
  match mt with
  | MotionType.kAbsolute => cround am - s.angular_position_microsteps
  | MotionType.kRelative => ctrunc am
  | _ => 0

/-- StepperDriver::CalculateRelativeMicrostepsToMoveByAngle.  Under the
kSetupMotion option it latches the position updater and writes the
direction pin according to the sign of the signed distance (leaving both
untouched when the distance is zero), then returns the absolute distance. -/
def CalculateRelativeMicrostepsToMoveByAngle (angle : ℚ) (u : AngleUnits)
    (mt : MotionType) (co : CalculationOption) (s : State) : State × Int :=
  let rel := relativeAngleMicrosteps s (angleMicrosteps s angle u) mt
  let s :=
    if co = CalculationOption.kSetupMotion then
      if rel < 0 then
        { s with angular_position_updater_microsteps := -1, dir_pin := PinLevel.low }
      else if 0 < rel then
        { s with angular_position_updater_microsteps := 1, dir_pin := PinLevel.high }
      else s
    else s
  (s, |rel|)

/-- StepperDriver::MoveByMicrostep: drives the pulse pin low then high (its
final level is high), decrements the remaining distance unless it is
already zero, and updates the angular position by the latched updater. -/
def MoveByMicrostep (s : State) : State :=
  { s with
    pul_pin := PinLevel.high
    pul_count := s.pul_count + 1
    relative_microsteps_to_move :=
      if s.relative_microsteps_to_move = 0 then s.relative_microsteps_to_move
      else s.relative_microsteps_to_move - 1
    angular_position_microsteps :=
      s.angular_position_microsteps + s.angular_position_updater_microsteps }

/-- StepperDriver::MoveByMicrostepAtMicrostepPeriod: emits one microstep and
re-references the timer if at least the operating period has elapsed on the
uint64 difference `micros() - reference_microstep_time_us`. -/
def MoveByMicrostepAtMicrostepPeriod (now : Nat) (operating_microstep_period_us : ℚ)
    (s : State) : State :=
  if operating_microstep_period_us ≤ ((elapsed64 now s.reference_microstep_time_us : Nat) : ℚ) then
    { MoveByMicrostep s with reference_microstep_time_us := now }
  else s

/-- The forced overrides at the head of MoveByAngle: a disabled driver
forces kStopAndReset; otherwise a zero microstep period forces kPause. -/
def effectiveMotionType (s : State) (mt : MotionType) : MotionType :=
  if s.power_state = PowerState.kDisabled then MotionType.kStopAndReset
  else if s.microstep_period_us = 0 then MotionType.kPause
  else mt

/-- The first switch of MoveByAngle (on the overridden motion type):
request handling.  kResume, kAbsolute and kRelative share one body by
fallthrough in the source. -/
def handleRequest (angle : ℚ) (u : AngleUnits) (mt : MotionType) (s : State) : State :=
  match mt with
  | MotionType.kStopAndReset =>
    { s with
      relative_microsteps_to_move := 0
      microsteps_after_acceleration := 0
      microsteps_after_constant_speed := 0
      motion_status := MotionStatus.kIdle }
  | MotionType.kPause => { s with motion_status := MotionStatus.kPaused }
  | MotionType.kResume | MotionType.kAbsolute | MotionType.kRelative =>
    if s.motion_status = MotionStatus.kIdle ∨ s.motion_status = MotionStatus.kPaused then
      let s :=
        if s.motion_status = MotionStatus.kIdle then
          let p := CalculateRelativeMicrostepsToMoveByAngle angle u mt
            CalculationOption.kSetupMotion s
          { p.1 with relative_microsteps_to_move := p.2 }
        else s
      { s with
        microsteps_after_acceleration := 0
        microsteps_after_constant_speed := 0
        motion_status := MotionStatus.kAccelerate }
    else s

/-- The minimum-microsteps value computed when MoveByAngle sets up a ramp:
`speed_period_us_ / (2000000 * microstep_period_us_ * microstep_period_us_)`
assigned to a uint64_t (truncation). -/
def minMicrostepsForAcceleration (s : State) : Int :=
  ctrunc (s.speed_period_us / (2000000 * s.microstep_period_us * s.microstep_period_us))

/-- The second switch of MoveByAngle (on the stored motion status): the
motion-profile state machine step.  The per-step accelerate/decelerate
speed arithmetic is an unimplemented TODO in the source, so those arms
change nothing beyond the written transitions. -/
def statusStep (now : Nat) (s : State) : State :=
  match s.motion_status with
  | MotionStatus.kIdle => s
  | MotionStatus.kPaused => s
  | MotionStatus.kAccelerate =>
    if s.speed_period_us = 0 then
      { s with motion_status := MotionStatus.kConstantSpeed }
    else if s.microsteps_after_acceleration = 0 then
      if s.relative_microsteps_to_move ≤ 2 * minMicrostepsForAcceleration s then
        { s with microsteps_after_acceleration := s.relative_microsteps_to_move / 2 }
      else
        { s with
          microsteps_after_acceleration :=
            s.relative_microsteps_to_move - minMicrostepsForAcceleration s
          microsteps_after_constant_speed := minMicrostepsForAcceleration s }
    else
      if s.relative_microsteps_to_move ≤ s.microsteps_after_acceleration then
        if s.microsteps_after_constant_speed = 0 then
          { s with motion_status := MotionStatus.kDecelerate }
        else
          { s with motion_status := MotionStatus.kConstantSpeed }
      else s
  | MotionStatus.kConstantSpeed =>
    if s.speed_period_us = 0 then
      if s.relative_microsteps_to_move = 0 then
        { s with motion_status := MotionStatus.kIdle }
      else
        MoveByMicrostepAtMicrostepPeriod now s.microstep_period_us s
    else if s.microsteps_after_constant_speed ≠ 0 then
      if s.relative_microsteps_to_move ≤ s.microsteps_after_constant_speed then
        { s with motion_status := MotionStatus.kDecelerate }
      else
        MoveByMicrostepAtMicrostepPeriod now s.microstep_period_us s
    else s
  | MotionStatus.kDecelerate =>
    if s.relative_microsteps_to_move = 0 then
      { s with motion_status := MotionStatus.kIdle }
    else s

/-- StepperDriver::MoveByAngle: one poll.  The returned motion status of the
source is the motion_status field of the resulting state. -/
def MoveByAngle (now : Nat) (angle : ℚ) (u : AngleUnits) (mt : MotionType)
    (s : State) : State :=
  statusStep now (handleRequest angle u (effectiveMotionType s mt) s)

/-- StepperDriver::MoveByJogging: one poll.  A no-op while disabled or at
zero speed; on a direction change it latches the new direction and writes
the direction pin (for kNegative/kPositive only); kNeutral emits no pulse;
otherwise it paces pulses at the configured microstep period.  Note that it
never touches angular_position_updater_microsteps_. -/
def MoveByJogging (now : Nat) (direction : MotionDirection) (s : State) : State :=
  if s.power_state = PowerState.kDisabled ∨ s.microstep_period_us = 0 then s
  else
    let s :=
      if s.set_direction ≠ direction then
        let s := { s with set_direction := direction }
        if direction = MotionDirection.kNegative then { s with dir_pin := PinLevel.low }
        else if direction = MotionDirection.kPositive then { s with dir_pin := PinLevel.high }
        else s
      else s
    if direction = MotionDirection.kNeutral then s
    else MoveByMicrostepAtMicrostepPeriod now s.microstep_period_us s

/-- The value StepperDriver::GetAngularPosition computes into its local
variable angular_position.  The source function then falls off its end
without a return statement (undefined behavior in C++), so this value is
never actually returned; see claim C8. -/
def GetAngularPositionValue (u : AngleUnits) (s : State) : ℚ :=
  match u with
  | AngleUnits.kMicrosteps => (s.angular_position_microsteps : ℚ)
  | AngleUnits.kDegrees => s.angular_position_microsteps * s.microstep_angle_degrees
  | AngleUnits.kRadians =>
    (s.angular_position_microsteps * kPi * s.microstep_angle_degrees) / 180
  | AngleUnits.kRevolutions =>
    (s.angular_position_microsteps * s.microstep_angle_degrees) / 360

/-- Repeated polling of MoveByAngle with a fixed request, one poll per
listed clock reading. -/
def runMoveByAngle (angle : ℚ) (u : AngleUnits) (mt : MotionType)
    (ts : List Nat) (s : State) : State :=
  List.foldl (fun s t => MoveByAngle t angle u mt s) s ts

/-- A poll schedule whose consecutive readings stay below the 32-bit clock
limit and are spaced by at least the microstep period, starting from the
stored timer reference. -/
def Spaced (mp : ℚ) : Nat → List Nat → Prop
  | _, [] => True
  | ref, t :: ts =>
    ref ≤ t ∧ t < UINT32_LIMIT ∧ mp ≤ ((t - ref : Nat) : ℚ) ∧ Spaced mp t ts

instance instDecidableSpaced (mp : ℚ) : (ref : Nat) → (ts : List Nat) → Decidable (Spaced mp ref ts)
  | _, [] => Decidable.isTrue trivial
  | _, t :: ts =>
    have : Decidable (Spaced mp t ts) := instDecidableSpaced mp t ts
    inferInstanceAs (Decidable (_ ∧ _ ∧ _ ∧ _))

/-- A convenient fully-specified driver state for concrete witnesses: unit
microstep angle, unit (nonzero) microstep period, no ramp, enabled, at rest
at position zero. -/
def baseState : State where
  microstep_angle_degrees := 1
  microstep_period_us := 1
  speed_period_us := 0
  power_state := PowerState.kEnabled
  angular_position_microsteps := 0
  angular_position_updater_microsteps := 1
  relative_microsteps_to_move := 0
  microsteps_after_acceleration := 0
  microsteps_after_constant_speed := 0
  motion_status := MotionStatus.kIdle
  dir_pin := PinLevel.high
  pul_pin := PinLevel.high
  reference_microstep_time_us := 0
  set_direction := MotionDirection.kNeutral
  pul_count := 0

end StepperDriver

end mt

namespace mtspin

namespace MomentaryButton

/-- Digital pin levels as read from the button pin. -/
inductive PinState
  | low
  | high
deriving DecidableEq

/-- Enumerators of MomentaryButton::DebounceStatus. -/
inductive DebounceStatus
  | kNotStarted
  | kOngoing
deriving DecidableEq

/-- Enumerators of MomentaryButton::PressType. -/
inductive PressType
  | kNoPress
  | kSinglePress
  | kMultiplePress
  | kLongPress
deriving DecidableEq

/-- The construction-time configuration of one MomentaryButton (pin identity
is abstracted away: the pin level read on a poll is an input). -/
structure Config where
  /-- Member unpressed_pin_state_. -/
  unpressed_pin_state : PinState
  /-- Member debounce_period_ (ms, uint16). -/
  debounce_period : Nat
  /-- Member multiple_press_period_ (ms, uint16). -/
  multiple_press_period : Nat
  /-- Member long_press_period_ (ms, uint16). -/
  long_press_period : Nat
deriving DecidableEq

/-- The function-local statics of MomentaryButton::DebounceButton. -/
structure DebounceState where
  /-- Static status. -/
  status : DebounceStatus
  /-- Static reference_debounce_time (ms, uint32).  The source never assigns
  it after its initialization. -/
  reference_debounce_time : Nat
deriving DecidableEq

/-- MomentaryButton::DebounceButton, one call at millis() = now.  Note the
faithful oddities of the source: the raw pin is never read, and
reference_debounce_time is never reset, so after the first debounce_period
from construction every call reports kNotStarted. -/
def DebounceButton (cfg : Config) (now : Nat) (d : DebounceState) : DebounceState :=
  let d :=
    if d.status = DebounceStatus.kNotStarted then { d with status := DebounceStatus.kOngoing }
    else d
  if d.status = DebounceStatus.kOngoing then
    if cfg.debounce_period < elapsed32 now d.reference_debounce_time then
      { d with status := DebounceStatus.kNotStarted }
    else d
  else d

/-- The function-local statics of MomentaryButton::IsPressed together with
the nested DebounceButton statics. -/
structure ButtonState where
  /-- Static press_counter (uint8). -/
  press_counter : Nat
  /-- Static long_press. -/
  long_press : Bool
  /-- Static waiting_for_long_press. -/
  waiting_for_long_press : Bool
  /-- Static waiting_for_press. -/
  waiting_for_press : Bool
  /-- Static waiting_for_release. -/
  waiting_for_release : Bool
  /-- Static debouncing. -/
  debouncing : DebounceStatus
  /-- Static previous_button_press_time (ms, uint32). -/
  previous_button_press_time : Nat
  /-- The statics of DebounceButton. -/
  debounce : DebounceState
deriving DecidableEq

/-- The statics of IsPressed as initialized on the first call, at
millis() = t0. -/
def initialButtonState (t0 : Nat) : ButtonState where
  press_counter := 0
  long_press := false
  waiting_for_long_press := false
  waiting_for_press := true
  waiting_for_release := false
  debouncing := DebounceStatus.kNotStarted
  previous_button_press_time := t0
  debounce := { status := DebounceStatus.kNotStarted, reference_debounce_time := t0 }

/-- MomentaryButton::IsPressed, one poll at millis() = now with the given
raw pin level: returns the new state, the returned PressType and the
press count written through the output reference.

The final switch of the source declares a fresh local `PressType
press_type` inside every case, shadowing the function-level press_type, so
the function-level value (and hence the return value) is always kNoPress;
the switch's only lasting effect is clearing the long_press static when the
output count is 1. -/
def IsPressed (cfg : Config) (now : Nat) (pin : PinState) (s : ButtonState) :
    ButtonState × PressType × Nat :=
  let d := DebounceButton cfg now s.debounce
  let s := { s with debounce := d, debouncing := d.status }
  let r :=
    if s.waiting_for_release = true ∧ s.debouncing = DebounceStatus.kNotStarted then
      ({ s with waiting_for_press := true }, 0)
    else if s.waiting_for_press = true ∧ s.debouncing = DebounceStatus.kOngoing then
      ({ s with press_counter := (s.press_counter + 1) % 256, waiting_for_press := false }, 0)
    else if s.waiting_for_press = false ∧ s.debouncing = DebounceStatus.kNotStarted then
      (if pin ≠ cfg.unpressed_pin_state then
        { s with
          waiting_for_long_press := true
          waiting_for_press := false
          previous_button_press_time := now }
      else
        { s with
          waiting_for_press := true
          waiting_for_long_press := false
          previous_button_press_time := now }, 0)
    else if s.waiting_for_long_press = true then
      (if pin ≠ cfg.unpressed_pin_state ∧
          cfg.long_press_period < elapsed32 now s.previous_button_press_time then
        { s with
          long_press := true
          waiting_for_release := true
          waiting_for_long_press := false }
      else if pin = cfg.unpressed_pin_state then
        { s with waiting_for_long_press := false, waiting_for_press := true }
      else s, 0)
    else if s.waiting_for_press = true then
      if cfg.multiple_press_period < elapsed32 now s.previous_button_press_time then
        ({ s with press_counter := 0 }, s.press_counter)
      else (s, 0)
    else (s, 0)
  let s := r.1
  let out := r.2
  let s := if out = 1 ∧ s.long_press = true then { s with long_press := false } else s
  (s, PressType.kNoPress, out)

/-- Repeated polling of IsPressed, one poll per (millis, pin level) pair,
keeping the last poll's returned press type and count. -/
def isPressedRun (cfg : Config) (polls : List (Nat × PinState)) (s : ButtonState) :
    ButtonState × PressType × Nat :=
  List.foldl (fun acc p => IsPressed cfg p.1 p.2 acc.1) (s, PressType.kNoPress, 0) polls

/-- A representative button configuration for concrete runs: active-high
button, 10 ms debounce, 100 ms multiple-press window, 1000 ms long-press
threshold. -/
def btnCfg : Config where
  unpressed_pin_state := PinState.low
  debounce_period := 10
  multiple_press_period := 100
  long_press_period := 1000

end MomentaryButton

end mtspin

namespace mt

namespace StepperDriver

/-- The angular increment of one microstep expressed in the given unit (the
per-microstep factor shared by the distance conversion and the position
getters). -/
def unitFactor (u : AngleUnits) (msa : ℚ) : ℚ :=
  match u with
  | AngleUnits.kMicrosteps => 1
  | AngleUnits.kDegrees => msa
  | AngleUnits.kRadians => kPi * msa / 180
  | AngleUnits.kRevolutions => msa / 360

/-- Half of one microstep expressed in the given unit: the tolerance of the
round-trip property. -/
def microstepHalf (u : AngleUnits) (msa : ℚ) : ℚ :=
  match u with
  | AngleUnits.kMicrosteps => 1 / 2
  | AngleUnits.kDegrees => msa / 2
  | AngleUnits.kRadians => kPi * msa / 360
  | AngleUnits.kRevolutions => msa / 720

/-- A driver state about to set up a ramp whose distance forces a
triangular profile: speed period 8000000, microstep period 2 (so the
minimum ramp distance is 1 microstep) and 2 microsteps to go. -/
def accelTri : State :=
  { baseState with
    motion_status := MotionStatus.kAccelerate
    speed_period_us := 8000000
    microstep_period_us := 2
    relative_microsteps_to_move := 2 }

/-- A driver state about to set up a ramp whose distance allows a
trapezoidal profile: as accelTri but with 5 microsteps to go. -/
def accelTrap : State :=
  { accelTri with relative_microsteps_to_move := 5 }

/-- A paused driver state with 7 microsteps of a move outstanding. -/
def pausedState : State :=
  { baseState with
    motion_status := MotionStatus.kPaused
    relative_microsteps_to_move := 7 }

end StepperDriver

end mt

open mt.StepperDriver mtspin.MomentaryButton

/-- Claim C3 (code divergence): with a 10 ms debounce period and the
debouncer's statics as initialized at construction time (millis() = 0),
polling at t = 0 starts a debounce (kOngoing); the poll at t = 11 reports a
stable transition (kNotStarted); the very next poll at t = 12 reports a
second stable transition just 1 ms — less than debounce_period — after the
first, because the source never resets reference_debounce_time (and never
reads the raw pin, so no bounce can restart the timer). -/
theorem debounce_second_stable_within_period :
    (DebounceButton btnCfg 0
      { status := DebounceStatus.kNotStarted, reference_debounce_time := 0 }).status
        = DebounceStatus.kOngoing
    ∧ (DebounceButton btnCfg 11 (DebounceButton btnCfg 0
        { status := DebounceStatus.kNotStarted, reference_debounce_time := 0 })).status
        = DebounceStatus.kNotStarted
    ∧ (DebounceButton btnCfg 12 (DebounceButton btnCfg 11 (DebounceButton btnCfg 0
        { status := DebounceStatus.kNotStarted, reference_debounce_time := 0 }))).status
        = DebounceStatus.kNotStarted
    ∧ 12 - 11 < btnCfg.debounce_period := by
  decide

/-- Claim C2 (code divergence): a single short press — pressed at t = 0,
released well before the 1000 ms long-press threshold — followed by the
100 ms multiple-press window elapsing makes IsPressed flush a press count
of 1, yet the returned press type is kNoPress, not kSinglePress: every case
of the source's final switch assigns a shadowing local press_type, so the
returned value is never set. -/
theorem isPressed_short_press_returns_noPress :
    (isPressedRun btnCfg
      [(0, PinState.high), (11, PinState.high), (12, PinState.low), (113, PinState.low)]
      (initialButtonState 0)).2 = (PressType.kNoPress, 1)
    ∧ PressType.kNoPress ≠ PressType.kSinglePress := by
  decide

/-- Claim C6 (code divergence): jogging in the Positive direction writes the
direction pin high (commanding physically positive motion) and emits a
pulse, but the tracked angular position moves by the stale
angular_position_updater_microsteps_ — here -1, as latched by an earlier
negative move — so the recorded position decreases from 0 to -1 instead of
strictly increasing. -/
theorem moveByJogging_positive_can_decrease_position :
    (MoveByJogging 5 MotionDirection.kPositive
      { baseState with angular_position_updater_microsteps := -1,
                       dir_pin := PinLevel.low }).angular_position_microsteps = -1
    ∧ (MoveByJogging 5 MotionDirection.kPositive
      { baseState with angular_position_updater_microsteps := -1,
                       dir_pin := PinLevel.low }).dir_pin = PinLevel.high
    ∧ (MoveByJogging 5 MotionDirection.kPositive
      { baseState with angular_position_updater_microsteps := -1,
                       dir_pin := PinLevel.low }).pul_count = 1 := by
  decide

/-- Claim C9 (code divergence): the microstep pacing check subtracts a
uint64 reference from the 32-bit micros() reading, so it is not safe across
the counter's wrap: with the reference at 2^32 - 100 and micros() back at 50
after wrapping, the true elapsed time on the 32-bit clock is 150 us — less
than the 1000 us period — yet the 64-bit difference is astronomically large
and the check fires a pulse immediately. -/
theorem microstepPeriod_check_fires_across_micros_wrap :
    (MoveByMicrostepAtMicrostepPeriod 50 1000
      { baseState with reference_microstep_time_us := 4294967196 }).pul_count = 1
    ∧ elapsed64 50 4294967196 = 18446744069414584470
    ∧ elapsed32 50 4294967196 = 150
    ∧ elapsed32 50 4294967196 < 1000 := by
  decide

/-- Claim C5 (counterexample): with the driver enabled and the microstep
period 0 (zero set speed), a caller-requested StopAndReset is overridden to
Pause before the request switch runs, so it does not reset
relative_microsteps_to_move_ to 0. -/
theorem stopAndReset_at_zero_speed_keeps_distance :
    (MoveByAngle 0 0 AngleUnits.kMicrosteps MotionType.kStopAndReset
      { baseState with microstep_period_us := 0,
                       relative_microsteps_to_move := 5 }).relative_microsteps_to_move = 5
    ∧ (MoveByAngle 0 0 AngleUnits.kMicrosteps MotionType.kStopAndReset
      { baseState with microstep_period_us := 0,
                       relative_microsteps_to_move := 5 }).relative_microsteps_to_move ≠ 0 := by
  decide

/-- Claim C4: on every call to MoveByAngle, a disabled driver overrides the
requested motion type to kStopAndReset — taking priority over everything
else, emitting no pulse and landing in kIdle — and otherwise a zero
microstep period overrides the request to kPause. -/
theorem moveByAngle_forced_overrides (s : State) (now : Nat) (angle : ℚ)
    (u : AngleUnits) (mt : MotionType) :
    (s.power_state = PowerState.kDisabled →
      effectiveMotionType s mt = MotionType.kStopAndReset
      ∧ (MoveByAngle now angle u mt s).pul_count = s.pul_count
      ∧ (MoveByAngle now angle u mt s).motion_status = MotionStatus.kIdle)
    ∧ (s.power_state ≠ PowerState.kDisabled → s.microstep_period_us = 0 →
      effectiveMotionType s mt = MotionType.kPause) := by
  constructor
  · intro h
    refine ⟨?_, ?_, ?_⟩ <;>
      simp [MoveByAngle, effectiveMotionType, handleRequest, statusStep, h]
  · intro h1 h2
    simp [effectiveMotionType, h1, h2]

/-- Witness for C4: a concrete disabled driver ignores an Absolute request
(no pulse, Idle), and a concrete enabled zero-speed driver turns even a
StopAndReset request into a Pause. -/
theorem moveByAngle_forced_overrides_w :
    (effectiveMotionType { baseState with power_state := PowerState.kDisabled }
        MotionType.kAbsolute = MotionType.kStopAndReset
      ∧ (MoveByAngle 0 0 AngleUnits.kMicrosteps MotionType.kAbsolute
          { baseState with power_state := PowerState.kDisabled }).pul_count
        = { baseState with power_state := PowerState.kDisabled }.pul_count
      ∧ (MoveByAngle 0 0 AngleUnits.kMicrosteps MotionType.kAbsolute
          { baseState with power_state := PowerState.kDisabled }).motion_status
        = MotionStatus.kIdle)
    ∧ effectiveMotionType { baseState with microstep_period_us := 0 }
        MotionType.kStopAndReset = MotionType.kPause :=
  ⟨(moveByAngle_forced_overrides { baseState with power_state := PowerState.kDisabled }
      0 0 AngleUnits.kMicrosteps MotionType.kAbsolute).1 rfl,
   (moveByAngle_forced_overrides { baseState with microstep_period_us := 0 }
      0 0 AngleUnits.kMicrosteps MotionType.kStopAndReset).2 (by decide) rfl⟩

/-- Claim C7: entering kAccelerate with a ramp configured and fresh ramp
bookkeeping, the source computes the minimum ramp distance m; a remaining
distance d with d <= 2m sets up a triangular profile (half the distance
before deceleration, no constant-speed allotment), and otherwise a
trapezoidal profile (d - m before deceleration, m of constant speed). -/
theorem accelerate_profile_setup (s : State) (now : Nat)
    (hst : s.motion_status = MotionStatus.kAccelerate)
    (hsp : s.speed_period_us ≠ 0)
    (hfresh : s.microsteps_after_acceleration = 0)
    (hconst : s.microsteps_after_constant_speed = 0) :
    (s.relative_microsteps_to_move ≤ 2 * minMicrostepsForAcceleration s →
      (statusStep now s).microsteps_after_acceleration = s.relative_microsteps_to_move / 2
      ∧ (statusStep now s).microsteps_after_constant_speed = 0
      ∧ (statusStep now s).motion_status = MotionStatus.kAccelerate)
    ∧ (2 * minMicrostepsForAcceleration s < s.relative_microsteps_to_move →
      (statusStep now s).microsteps_after_acceleration
        = s.relative_microsteps_to_move - minMicrostepsForAcceleration s
      ∧ (statusStep now s).microsteps_after_constant_speed = minMicrostepsForAcceleration s
      ∧ (statusStep now s).motion_status = MotionStatus.kAccelerate) := by
  constructor
  · intro hle
    simp [statusStep, hst, hsp, hfresh, hconst, hle]
  · intro hgt
    simp [statusStep, hst, hsp, hfresh, hconst, not_le.mpr hgt]

/-- Witness for C7: with speed period 8000000 and microstep period 2 the
minimum ramp distance is 1 microstep, so 2 microsteps to go give the
triangular setup (1 after acceleration) and 5 microsteps to go give the
trapezoidal setup (4 after acceleration, 1 of constant speed). -/
theorem accelerate_profile_setup_w :
    (statusStep 0 accelTri).microsteps_after_acceleration = 1
    ∧ (statusStep 0 accelTrap).microsteps_after_acceleration = 4
    ∧ (statusStep 0 accelTrap).microsteps_after_constant_speed = 1 := by
  have hm1 : minMicrostepsForAcceleration accelTri = 1 := by
    norm_num [minMicrostepsForAcceleration, ctrunc, accelTri, baseState]
  have hm2 : minMicrostepsForAcceleration accelTrap = 1 := by
    norm_num [minMicrostepsForAcceleration, ctrunc, accelTrap, accelTri, baseState]
  have h1 := (accelerate_profile_setup accelTri 0 rfl (by decide) rfl rfl).1
    (by rw [hm1]; decide)
  have h2 := (accelerate_profile_setup accelTrap 0 rfl (by decide) rfl rfl).2
    (by rw [hm2]; decide)
  refine ⟨?_, ?_, ?_⟩
  · rw [h1.1]; decide
  · rw [h2.1, hm2]; decide
  · rw [h2.2.1]; exact hm2

/-- Claim C10: an Absolute or Relative request arriving while the motion
status is kAccelerate, kConstantSpeed or kDecelerate leaves the whole state
— remaining distance, latched direction pin and updater, ramp bookkeeping —
untouched by the request-handling switch (so the angle arguments have no
effect); from kPaused the outstanding distance is resumed unchanged with
only the ramp bookkeeping cleared and the status set to kAccelerate; a new
target distance is computed only from kIdle. -/
theorem moveByAngle_request_frame (s : State) (angle : ℚ) (u : AngleUnits)
    (mt : MotionType)
    (hmt : mt = MotionType.kAbsolute ∨ mt = MotionType.kRelative) :
    ((s.motion_status = MotionStatus.kAccelerate
        ∨ s.motion_status = MotionStatus.kConstantSpeed
        ∨ s.motion_status = MotionStatus.kDecelerate) →
      handleRequest angle u mt s = s)
    ∧ (s.motion_status = MotionStatus.kPaused →
      handleRequest angle u mt s =
        { s with
          microsteps_after_acceleration := 0
          microsteps_after_constant_speed := 0
          motion_status := MotionStatus.kAccelerate })
    ∧ (s.motion_status = MotionStatus.kIdle →
      (handleRequest angle u mt s).relative_microsteps_to_move
        = |relativeAngleMicrosteps s (angleMicrosteps s angle u) mt|) := by
  rcases hmt with h | h <;> subst h <;> refine ⟨?_, ?_, ?_⟩
  · rintro (hs | hs | hs) <;> simp [handleRequest, hs]
  · intro hs
    simp [handleRequest, hs]
  · intro hs
    simp [handleRequest, CalculateRelativeMicrostepsToMoveByAngle, hs]
  · rintro (hs | hs | hs) <;> simp [handleRequest, hs]
  · intro hs
    simp [handleRequest, hs]
  · intro hs
    simp [handleRequest, CalculateRelativeMicrostepsToMoveByAngle, hs]

/-- Witness for C10: an Absolute request at a concrete paused state resumes
the 7 outstanding microsteps unchanged, merely clearing the ramp
bookkeeping and switching to kAccelerate. -/
theorem moveByAngle_request_frame_w :
    handleRequest 9 AngleUnits.kDegrees MotionType.kAbsolute pausedState
      = { pausedState with
          microsteps_after_acceleration := 0
          microsteps_after_constant_speed := 0
          motion_status := MotionStatus.kAccelerate } :=
  (moveByAngle_request_frame pausedState 9 AngleUnits.kDegrees MotionType.kAbsolute
    (Or.inl rfl)).2.1 rfl

/-- MoveByMicrostep decrements the remaining distance by exactly one unless
it is already zero (the source guards the uint64 decrement). -/
theorem moveByMicrostep_rel (s : State) :
    (MoveByMicrostep s).relative_microsteps_to_move =
      if s.relative_microsteps_to_move = 0 then s.relative_microsteps_to_move
      else s.relative_microsteps_to_move - 1 := rfl

/-- A pulse emission keeps the remaining distance nonnegative. -/
theorem moveByMicrostep_rel_nonneg (s : State)
    (h : 0 ≤ s.relative_microsteps_to_move) :
    0 ≤ (MoveByMicrostep s).relative_microsteps_to_move := by
  rw [moveByMicrostep_rel]
  split_ifs with h0 <;> omega

/-- The paced pulse emitter keeps the remaining distance nonnegative. -/
theorem moveByMicrostepAt_rel_nonneg (now : Nat) (p : ℚ) (s : State)
    (h : 0 ≤ s.relative_microsteps_to_move) :
    0 ≤ (MoveByMicrostepAtMicrostepPeriod now p s).relative_microsteps_to_move := by
  unfold MoveByMicrostepAtMicrostepPeriod
  split_ifs with hg
  · exact moveByMicrostep_rel_nonneg s h
  · exact h

/-- The request-handling switch keeps the remaining distance nonnegative
(a fresh target is an absolute value, StopAndReset zeroes it, everything
else leaves it alone). -/
theorem handleRequest_rel_nonneg (angle : ℚ) (u : AngleUnits) (mt : MotionType)
    (s : State) (h : 0 ≤ s.relative_microsteps_to_move) :
    0 ≤ (handleRequest angle u mt s).relative_microsteps_to_move := by
  cases mt <;>
    simp only [handleRequest, CalculateRelativeMicrostepsToMoveByAngle] <;>
    (try split_ifs) <;>
    first
      | exact h
      | exact le_rfl
      | exact abs_nonneg _

/-- The motion-status switch keeps the remaining distance nonnegative. -/
theorem statusStep_rel_nonneg (now : Nat) (s : State)
    (h : 0 ≤ s.relative_microsteps_to_move) :
    0 ≤ (statusStep now s).relative_microsteps_to_move := by
  rcases hs : s.motion_status <;>
    simp only [statusStep, hs] <;>
    (try split_ifs) <;>
    first
      | exact h
      | exact moveByMicrostepAt_rel_nonneg _ _ _ h

/-- One whole MoveByAngle poll keeps the remaining distance nonnegative. -/
theorem moveByAngle_rel_nonneg (now : Nat) (angle : ℚ) (u : AngleUnits)
    (mt : MotionType) (s : State) (h : 0 ≤ s.relative_microsteps_to_move) :
    0 ≤ (MoveByAngle now angle u mt s).relative_microsteps_to_move :=
  statusStep_rel_nonneg now _ (handleRequest_rel_nonneg angle u _ s h)

/-- One jogging poll keeps the remaining distance nonnegative. -/
theorem moveByJogging_rel_nonneg (now : Nat) (d : MotionDirection) (s : State)
    (h : 0 ≤ s.relative_microsteps_to_move) :
    0 ≤ (MoveByJogging now d s).relative_microsteps_to_move := by
  unfold MoveByJogging
  split_ifs <;>
    first
      | exact h
      | exact moveByMicrostepAt_rel_nonneg _ _ _ h

/-- Whenever the StopAndReset override survives (disabled driver, or a
nonzero microstep period), a StopAndReset request zeroes the remaining
distance. -/
theorem stopAndReset_resets (now : Nat) (angle : ℚ) (u : AngleUnits) (s : State)
    (h : s.power_state = PowerState.kDisabled ∨ s.microstep_period_us ≠ 0) :
    (MoveByAngle now angle u MotionType.kStopAndReset s).relative_microsteps_to_move = 0 := by
  have he : effectiveMotionType s MotionType.kStopAndReset = MotionType.kStopAndReset := by
    rcases h with h | h
    · simp [effectiveMotionType, h]
    · cases hp : s.power_state <;> simp [effectiveMotionType, hp, h]
  rw [MoveByAngle, he]
  simp [handleRequest, statusStep]

/-- Claim C5 (amended): the remaining-distance counter stays nonnegative
under every operation, each emitted pulse decrements it by exactly one with
a floor at zero, and a StopAndReset request resets it to zero whenever the
request is not overridden to Pause by the zero-speed check (i.e. when the
driver is disabled or the microstep period is nonzero). -/
theorem relativeMicrosteps_invariant (s : State) (now : Nat) (angle : ℚ)
    (u : AngleUnits) (mt : MotionType) (d : MotionDirection)
    (h : 0 ≤ s.relative_microsteps_to_move) :
    0 ≤ (MoveByAngle now angle u mt s).relative_microsteps_to_move
    ∧ 0 ≤ (MoveByJogging now d s).relative_microsteps_to_move
    ∧ 0 ≤ (MoveByMicrostep s).relative_microsteps_to_move
    ∧ (MoveByMicrostep s).relative_microsteps_to_move
        = (if s.relative_microsteps_to_move = 0 then s.relative_microsteps_to_move
           else s.relative_microsteps_to_move - 1)
    ∧ ((s.power_state = PowerState.kDisabled ∨ s.microstep_period_us ≠ 0) →
        (MoveByAngle now angle u MotionType.kStopAndReset s).relative_microsteps_to_move = 0) :=
  ⟨moveByAngle_rel_nonneg now angle u mt s h,
   moveByJogging_rel_nonneg now d s h,
   moveByMicrostep_rel_nonneg s h,
   moveByMicrostep_rel s,
   fun hov => stopAndReset_resets now angle u s hov⟩

/-- Witness for C5: at rest the invariant holds, a pulse at zero distance
floors at zero, and a StopAndReset request from a concrete paused state
with nonzero speed really zeroes the 7 outstanding microsteps. -/
theorem relativeMicrosteps_invariant_w :
    0 ≤ (MoveByAngle 0 0 AngleUnits.kMicrosteps MotionType.kAbsolute
          baseState).relative_microsteps_to_move
    ∧ (MoveByAngle 0 0 AngleUnits.kMicrosteps MotionType.kStopAndReset
        pausedState).relative_microsteps_to_move = 0 := by
  have h1 := relativeMicrosteps_invariant baseState 0 0 AngleUnits.kMicrosteps
    MotionType.kAbsolute MotionDirection.kNeutral (by decide)
  have h2 := relativeMicrosteps_invariant pausedState 0 0 AngleUnits.kMicrosteps
    MotionType.kAbsolute MotionDirection.kNeutral (by decide)
  exact ⟨h1.1, h2.2.2.2.2 (Or.inr (by decide))⟩

/-- The double approximation of pi is positive. -/
theorem kPi_pos : 0 < kPi := by norm_num [kPi]

/-- The per-microstep angular increment is positive in every unit when the
microstep angle is. -/
theorem unitFactor_pos (u : AngleUnits) (msa : ℚ) (hmsa : 0 < msa) :
    0 < unitFactor u msa := by
  have hpi := kPi_pos
  cases u <;> simp only [unitFactor] <;> positivity

/-- The distance conversion divides the requested angle by the
per-microstep increment of the chosen unit. -/
theorem angleMicrosteps_eq_div (s : State) (T : ℚ) (u : AngleUnits)
    (hmsa : s.microstep_angle_degrees ≠ 0) :
    angleMicrosteps s T u = T / unitFactor u s.microstep_angle_degrees := by
  have hpi : kPi ≠ 0 := ne_of_gt kPi_pos
  cases u <;> simp only [angleMicrosteps, unitFactor] <;> field_simp <;> ring

/-- The position getter multiplies the microstep position by the same
per-microstep increment. -/
theorem getAngularPositionValue_eq_mul (s : State) (u : AngleUnits) :
    GetAngularPositionValue u s
      = s.angular_position_microsteps * unitFactor u s.microstep_angle_degrees := by
  cases u <;> simp only [GetAngularPositionValue, unitFactor] <;> ring

/-- The round-trip tolerance is half the per-microstep increment. -/
theorem microstepHalf_eq (u : AngleUnits) (msa : ℚ) :
    microstepHalf u msa = unitFactor u msa / 2 := by
  cases u <;> simp only [microstepHalf, unitFactor] <;> ring

/-- C round() lands within half a unit of its argument. -/
theorem cround_close (q : ℚ) : |(cround q : ℚ) - q| ≤ 1 / 2 := by
  unfold cround
  split_ifs with hq
  · have h1 : ((Int.floor (-q + 1/2) : Int) : ℚ) ≤ -q + 1/2 := Int.floor_le _
    have h2 : -q + 1/2 < (Int.floor (-q + 1/2) : Int) + 1 := Int.lt_floor_add_one _
    rw [abs_le]
    push_cast
    constructor <;> linarith
  · have h1 : ((Int.floor (q + 1/2) : Int) : ℚ) ≤ q + 1/2 := Int.floor_le _
    have h2 : q + 1/2 < (Int.floor (q + 1/2) : Int) + 1 := Int.lt_floor_add_one _
    rw [abs_le]
    constructor <;> linarith

/-- Claim C8 (for the value the source computes): after an Absolute move to
target T completes — the microstep position equals the rounded converted
target — the value GetAngularPosition computes in the same unit is within
half a microstep of the originally requested T. -/
theorem getAngularPosition_roundTrip (s : State) (T : ℚ) (u : AngleUnits)
    (hmsa : 0 < s.microstep_angle_degrees)
    (hpos : s.angular_position_microsteps = cround (angleMicrosteps s T u)) :
    |GetAngularPositionValue u s - T| ≤ microstepHalf u s.microstep_angle_degrees := by
  have hc : 0 < unitFactor u s.microstep_angle_degrees := unitFactor_pos u _ hmsa
  rw [getAngularPositionValue_eq_mul, microstepHalf_eq, hpos,
    angleMicrosteps_eq_div s T u (ne_of_gt hmsa)]
  have h1 := cround_close (T / unitFactor u s.microstep_angle_degrees)
  have hT : T / unitFactor u s.microstep_angle_degrees * unitFactor u s.microstep_angle_degrees
      = T := div_mul_cancel₀ T (ne_of_gt hc)
  calc |(cround (T / unitFactor u s.microstep_angle_degrees) : ℚ)
          * unitFactor u s.microstep_angle_degrees - T|
      = |((cround (T / unitFactor u s.microstep_angle_degrees) : ℚ)
          - T / unitFactor u s.microstep_angle_degrees)
          * unitFactor u s.microstep_angle_degrees| := by rw [sub_mul, hT]
    _ = |(cround (T / unitFactor u s.microstep_angle_degrees) : ℚ)
          - T / unitFactor u s.microstep_angle_degrees|
          * |unitFactor u s.microstep_angle_degrees| := abs_mul _ _
    _ ≤ (1 / 2) * |unitFactor u s.microstep_angle_degrees| := by
          apply mul_le_mul_of_nonneg_right h1 (abs_nonneg _)
    _ = unitFactor u s.microstep_angle_degrees / 2 := by
          rw [abs_of_pos hc]; ring

/-- Witness for C8: with a one-degree microstep angle, a completed Absolute
move to 5/2 microsteps sits at microstep 3 and reads back within half a
microstep of the request. -/
theorem getAngularPosition_roundTrip_w :
    |GetAngularPositionValue AngleUnits.kMicrosteps
        { baseState with angular_position_microsteps := 3 } - 5 / 2|
      ≤ microstepHalf AngleUnits.kMicrosteps
          { baseState with angular_position_microsteps := 3 }.microstep_angle_degrees := by
  apply getAngularPosition_roundTrip
    { baseState with angular_position_microsteps := 3 } (5 / 2) AngleUnits.kMicrosteps
  · norm_num [baseState]
  · norm_num [cround, angleMicrosteps, baseState]

/-- The 32-bit clock limit is below the 64-bit arithmetic modulus. -/
theorem uint32_lt_uint64 : UINT32_LIMIT < UINT64_LIMIT := by
  norm_num [UINT32_LIMIT, UINT64_LIMIT]

/-- Without a wrap of the reference, the uint64 difference is the true
elapsed time. -/
theorem elapsed64_of_le (now ref : Nat) (h1 : ref ≤ now) (h2 : now < UINT64_LIMIT) :
    elapsed64 now ref = now - ref := by
  simp only [elapsed64, UINT64_LIMIT] at h2 ⊢
  omega

/-- A schedule spaced from a later reference is spaced from any earlier
one. -/
theorem Spaced_anti (mp : ℚ) (ts : List Nat) : ∀ (ref ref' : Nat), ref' ≤ ref →
    Spaced mp ref ts → Spaced mp ref' ts := by
  induction ts with
  | nil => intro _ _ _ _; trivial
  | cons t ts ih =>
    intro ref ref' hle h
    obtain ⟨h1, h2, h3, h4⟩ := h
    refine ⟨le_trans hle h1, h2, le_trans h3 ?_, h4⟩
    exact_mod_cast Nat.sub_le_sub_left hle t

/-- Unfolding one poll of a repeated-request run. -/
theorem runMoveByAngle_cons (angle : ℚ) (u : AngleUnits) (mt : MotionType)
    (t : Nat) (ts : List Nat) (s : State) :
    runMoveByAngle angle u mt (t :: ts) s
      = runMoveByAngle angle u mt ts (MoveByAngle t angle u mt s) := rfl

/-- The cruise phase of a no-ramp move: from kConstantSpeed with n
microsteps to go and a sufficiently spaced schedule of n + 1 polls, the
driver emits exactly n pulses, moves the position by n latched updater
increments, and lands in kIdle. -/
theorem cruise_completes (T : ℚ) (u : AngleUnits) :
    ∀ (n : Nat) (s : State) (ts : List Nat),
      s.power_state = PowerState.kEnabled →
      0 < s.microstep_period_us →
      s.speed_period_us = 0 →
      s.motion_status = MotionStatus.kConstantSpeed →
      s.relative_microsteps_to_move = (n : Int) →
      Spaced s.microstep_period_us s.reference_microstep_time_us ts →
      ts.length = n + 1 →
      (runMoveByAngle T u MotionType.kAbsolute ts s).pul_count = s.pul_count + n
      ∧ (runMoveByAngle T u MotionType.kAbsolute ts s).motion_status = MotionStatus.kIdle
      ∧ (runMoveByAngle T u MotionType.kAbsolute ts s).angular_position_microsteps
          = s.angular_position_microsteps
            + n * s.angular_position_updater_microsteps := by
  intro n
  induction n with
  | zero =>
    intro s ts hpow hmp hsp hst hrel hsch hlen
    rcases ts with _ | ⟨t, ts2⟩
    · simp at hlen
    rcases ts2 with _ | ⟨t2, ts3⟩
    · have hpne : s.power_state ≠ PowerState.kDisabled := by simp [hpow]
      have hmpne : s.microstep_period_us ≠ 0 := ne_of_gt hmp
      have hpoll : MoveByAngle t T u MotionType.kAbsolute s
          = { s with motion_status := MotionStatus.kIdle } := by
        simp [MoveByAngle, effectiveMotionType, handleRequest, statusStep,
          hpne, hmpne, hst, hsp, hrel]
      rw [runMoveByAngle_cons, hpoll]
      simp [runMoveByAngle]
    · simp at hlen
  | succ n ih =>
    intro s ts hpow hmp hsp hst hrel hsch hlen
    rcases ts with _ | ⟨t, ts2⟩
    · simp at hlen
    obtain ⟨hle, hlt, hgap, htail⟩ := hsch
    have hpne : s.power_state ≠ PowerState.kDisabled := by simp [hpow]
    have hmpne : s.microstep_period_us ≠ 0 := ne_of_gt hmp
    have hgate : s.microstep_period_us
        ≤ ((elapsed64 t s.reference_microstep_time_us : Nat) : ℚ) := by
      rw [elapsed64_of_le t s.reference_microstep_time_us hle
        (lt_trans hlt uint32_lt_uint64)]
      exact hgap
    have hrelne : s.relative_microsteps_to_move ≠ 0 := by
      rw [hrel]
      exact_mod_cast Nat.succ_ne_zero n
    have hpoll : MoveByAngle t T u MotionType.kAbsolute s =
        { s with
          pul_pin := PinLevel.high
          pul_count := s.pul_count + 1
          relative_microsteps_to_move := s.relative_microsteps_to_move - 1
          angular_position_microsteps :=
            s.angular_position_microsteps + s.angular_position_updater_microsteps
          reference_microstep_time_us := t } := by
      simp [MoveByAngle, effectiveMotionType, handleRequest, statusStep,
        MoveByMicrostepAtMicrostepPeriod, MoveByMicrostep,
        hpne, hmpne, hst, hsp, hrelne, hgate]
    have hrec := ih
      { s with
        pul_pin := PinLevel.high
        pul_count := s.pul_count + 1
        relative_microsteps_to_move := s.relative_microsteps_to_move - 1
        angular_position_microsteps :=
          s.angular_position_microsteps + s.angular_position_updater_microsteps
        reference_microstep_time_us := t }
      ts2 hpow hmp hsp hst (by dsimp only; omega)
      (Spaced_anti s.microstep_period_us ts2 t t (le_refl t) htail)
      (by simpa using hlen)
    rw [runMoveByAngle_cons, hpoll]
    obtain ⟨hc1, hc2, hc3⟩ := hrec
    dsimp only at hc1 hc3
    refine ⟨?_, hc2, ?_⟩
    · rw [hc1]; omega
    · rw [hc3]; push_cast; ring

/-- Claim C1: with the driver enabled, a nonzero (positive) microstep
period and no ramp configured, repeatedly polling MoveByAngle with an
Absolute request to target T from position P — on any schedule of
sufficiently spaced poll times of the exact length of the move — emits
exactly |T - P| microstep pulses (T taken in microsteps after unit
conversion and rounding), ends with motion status kIdle, and leaves the
angular position at T rounded to the nearest microstep. -/
theorem moveByAngle_absolute_completes (s : State) (T : ℚ) (u : AngleUnits)
    (ts : List Nat)
    (hpow : s.power_state = PowerState.kEnabled)
    (hmp : 0 < s.microstep_period_us)
    (hsp : s.speed_period_us = 0)
    (hst : s.motion_status = MotionStatus.kIdle)
    (hsch : Spaced s.microstep_period_us s.reference_microstep_time_us ts)
    (hlen : ts.length
      = (cround (angleMicrosteps s T u) - s.angular_position_microsteps).natAbs + 2) :
    (runMoveByAngle T u MotionType.kAbsolute ts s).pul_count
      = s.pul_count
        + (cround (angleMicrosteps s T u) - s.angular_position_microsteps).natAbs
    ∧ (runMoveByAngle T u MotionType.kAbsolute ts s).motion_status = MotionStatus.kIdle
    ∧ (runMoveByAngle T u MotionType.kAbsolute ts s).angular_position_microsteps
      = cround (angleMicrosteps s T u) := by
  rcases ts with _ | ⟨t0, rest⟩
  · simp at hlen
  obtain ⟨hle, hlt, hgap, htail⟩ := hsch
  have hpne : s.power_state ≠ PowerState.kDisabled := by simp [hpow]
  have hmpne : s.microstep_period_us ≠ 0 := ne_of_gt hmp
  have hsched2 : Spaced s.microstep_period_us s.reference_microstep_time_us rest :=
    Spaced_anti _ rest t0 _ hle htail
  have hlen2 : rest.length
      = (cround (angleMicrosteps s T u) - s.angular_position_microsteps).natAbs + 1 := by
    simp only [List.length_cons] at hlen
    omega
  rcases lt_trichotomy
    (cround (angleMicrosteps s T u) - s.angular_position_microsteps) 0 with hr | hr | hr
  · have hpoll : MoveByAngle t0 T u MotionType.kAbsolute s =
        { s with
          angular_position_updater_microsteps := -1
          dir_pin := PinLevel.low
          relative_microsteps_to_move :=
            |cround (angleMicrosteps s T u) - s.angular_position_microsteps|
          microsteps_after_acceleration := 0
          microsteps_after_constant_speed := 0
          motion_status := MotionStatus.kConstantSpeed } := by
      simp [MoveByAngle, effectiveMotionType, handleRequest, statusStep,
        CalculateRelativeMicrostepsToMoveByAngle, relativeAngleMicrosteps,
        hpne, hmpne, hst, hsp, hr]
    have hcr := cruise_completes T u
      (cround (angleMicrosteps s T u) - s.angular_position_microsteps).natAbs
      { s with
        angular_position_updater_microsteps := -1
        dir_pin := PinLevel.low
        relative_microsteps_to_move :=
          |cround (angleMicrosteps s T u) - s.angular_position_microsteps|
        microsteps_after_acceleration := 0
        microsteps_after_constant_speed := 0
        motion_status := MotionStatus.kConstantSpeed }
      rest hpow hmp hsp rfl (Int.abs_eq_natAbs _) hsched2 hlen2
    rw [runMoveByAngle_cons, hpoll]
    obtain ⟨hc1, hc2, hc3⟩ := hcr
    dsimp only at hc1 hc3
    refine ⟨hc1, hc2, ?_⟩
    rw [hc3]
    omega
  · have hpoll : MoveByAngle t0 T u MotionType.kAbsolute s =
        { s with
          relative_microsteps_to_move := 0
          microsteps_after_acceleration := 0
          microsteps_after_constant_speed := 0
          motion_status := MotionStatus.kConstantSpeed } := by
      simp [MoveByAngle, effectiveMotionType, handleRequest, statusStep,
        CalculateRelativeMicrostepsToMoveByAngle, relativeAngleMicrosteps,
        hpne, hmpne, hst, hsp, hr]
    have hcr := cruise_completes T u
      (cround (angleMicrosteps s T u) - s.angular_position_microsteps).natAbs
      { s with
        relative_microsteps_to_move := 0
        microsteps_after_acceleration := 0
        microsteps_after_constant_speed := 0
        motion_status := MotionStatus.kConstantSpeed }
      rest hpow hmp hsp rfl (by simp [hr]) hsched2 hlen2
    rw [runMoveByAngle_cons, hpoll]
    obtain ⟨hc1, hc2, hc3⟩ := hcr
    dsimp only at hc1 hc3
    refine ⟨hc1, hc2, ?_⟩
    rw [hc3]
    have hz : (cround (angleMicrosteps s T u)
        - s.angular_position_microsteps).natAbs = 0 := by
      rw [hr]
      rfl
    simp only [hz]
    push_cast
    omega
  · have hpoll : MoveByAngle t0 T u MotionType.kAbsolute s =
        { s with
          angular_position_updater_microsteps := 1
          dir_pin := PinLevel.high
          relative_microsteps_to_move :=
            |cround (angleMicrosteps s T u) - s.angular_position_microsteps|
          microsteps_after_acceleration := 0
          microsteps_after_constant_speed := 0
          motion_status := MotionStatus.kConstantSpeed } := by
      simp [MoveByAngle, effectiveMotionType, handleRequest, statusStep,
        CalculateRelativeMicrostepsToMoveByAngle, relativeAngleMicrosteps,
        hpne, hmpne, hst, hsp, hr, not_lt.mpr (le_of_lt hr)]
    have hcr := cruise_completes T u
      (cround (angleMicrosteps s T u) - s.angular_position_microsteps).natAbs
      { s with
        angular_position_updater_microsteps := 1
        dir_pin := PinLevel.high
        relative_microsteps_to_move :=
          |cround (angleMicrosteps s T u) - s.angular_position_microsteps|
        microsteps_after_acceleration := 0
        microsteps_after_constant_speed := 0
        motion_status := MotionStatus.kConstantSpeed }
      rest hpow hmp hsp rfl (Int.abs_eq_natAbs _) hsched2 hlen2
    rw [runMoveByAngle_cons, hpoll]
    obtain ⟨hc1, hc2, hc3⟩ := hcr
    dsimp only at hc1 hc3
    refine ⟨hc1, hc2, ?_⟩
    rw [hc3]
    omega

/-- Witness for C1: from rest at position 0 with unit microstep period and
no ramp, polling an Absolute request to 3 microsteps at times 1..5 emits
exactly 3 pulses, ends kIdle and leaves the position at 3. -/
theorem moveByAngle_absolute_completes_w :
    (runMoveByAngle 3 AngleUnits.kMicrosteps MotionType.kAbsolute
        [1, 2, 3, 4, 5] baseState).pul_count = 3
    ∧ (runMoveByAngle 3 AngleUnits.kMicrosteps MotionType.kAbsolute
        [1, 2, 3, 4, 5] baseState).motion_status = MotionStatus.kIdle
    ∧ (runMoveByAngle 3 AngleUnits.kMicrosteps MotionType.kAbsolute
        [1, 2, 3, 4, 5] baseState).angular_position_microsteps = 3 := by
  have h := moveByAngle_absolute_completes baseState 3 AngleUnits.kMicrosteps
    [1, 2, 3, 4, 5] rfl (by decide) rfl rfl (by decide)
    (by norm_num [cround, angleMicrosteps, baseState])
  refine ⟨?_, h.2.1, ?_⟩
  · rw [h.1]
    norm_num [cround, angleMicrosteps, baseState]
  · rw [h.2.2]
    norm_num [cround, angleMicrosteps, baseState]
